import Mathlib

/-!
Verification of the batched remote-operation orchestrator with integrated
error classification and retry from the roxybrowser-mcp-server repository.

The definitions below are a shallow embedding of:
- the error taxonomy and RoxyApiError class (src/src/types.ts),
- the ErrorAnalyzer utility (src/src/utils/error-analyzer.ts),
- the batched openBrowsers / createBrowsers executors of RoxyClient
  (src/unnamed/part_002 and src/src/roxy-client.ts).

JavaScript strings are Lean Strings, numeric codes are Nat, thrown errors
are modelled with Except, and the asynchronous window loop is modelled as a
pure function over lists (plus an event-trace model for the ordering claim).
-/

namespace Roxy

/- ===================== String helpers ===================== -/

/-- Membership of a character list as a contiguous segment of another,
matching the JavaScript String.prototype.includes semantics. -/
def charsInclude (needle : List Char) : List Char → Bool
  | [] => needle.isEmpty
  | c :: rest => needle.isPrefixOf (c :: rest) || charsInclude needle rest

/-- JavaScript msg.includes(pat): case-sensitive substring containment. -/
def strIncludes (s pat : String) : Bool :=
  charsInclude pat.toList s.toList

/-- Case-insensitive substring containment: the semantics of the /.../i
regular expressions of NETWORK_ERROR_PATTERNS and of the
msg.toLowerCase().includes(keyword.toLowerCase()) probe of findCommonPatterns. -/
def strIncludesCI (s pat : String) : Bool :=
  charsInclude (pat.toList.map Char.toLower) (s.toList.map Char.toLower)

/- ===================== Concurrency windows ===================== -/

/-- Structurally recursive worker for windowsOf: the fuel argument only bounds
the recursion depth (it is always the list length, which suffices because each
step drops at least one element when k is positive) so that concrete batches
evaluate inside the kernel. -/
def windowsOfAux (k : Nat) : Nat → List α → List (List α)
  | _, [] => []
  | 0, _ :: _ => []
  | fuel + 1, x :: xs => (x :: xs).take k :: windowsOfAux k fuel (xs.drop (k - 1))

/-- Consecutive windows of size k, as produced by the source loops
for (let i = 0; i < items.length; i += BATCH_SIZE) with items.slice(i, i + BATCH_SIZE).
Meaningful for k bigger than 0, the only instantiations in the source (5 and 3). -/
def windowsOf (k : Nat) (xs : List α) : List (List α) :=
  windowsOfAux k xs.length xs

theorem flatten_windowsOfAux (k : Nat) (hk : 0 < k) :
    ∀ (fuel : Nat) (xs : List α), xs.length ≤ fuel → (windowsOfAux k fuel xs).flatten = xs := by
  intro fuel
  induction fuel with
  | zero =>
    intro xs hxs
    have : xs = [] := List.length_eq_zero.mp (Nat.le_zero.mp hxs)
    subst this
    simp [windowsOfAux]
  | succ n ih =>
    intro xs hxs
    match xs with
    | [] => simp [windowsOfAux]
    | x :: xs =>
      obtain ⟨m, rfl⟩ : ∃ m, k = m + 1 := ⟨k - 1, by omega⟩
      have hxs' : xs.length ≤ n := by
        simp only [List.length_cons] at hxs
        omega
      have hrec := ih (xs.drop m) (by simp only [List.length_drop]; omega)
      simp only [windowsOfAux, Nat.add_sub_cancel, List.flatten_cons, hrec,
        List.take_succ_cons, List.cons_append, List.take_append_drop]

theorem flatten_windowsOf (k : Nat) (hk : 0 < k) (xs : List α) :
    (windowsOf k xs).flatten = xs :=
  flatten_windowsOfAux k hk xs.length xs (Nat.le_refl _)

/- ===================== Error taxonomy (src/src/types.ts) ===================== -/

/-- Categories of the ErrorInfo table, plus the string fallback value used by
the RoxyApiError constructor for codes missing from the table. -/
inductive Category
  | network
  | authentication
  | configuration
  | resource
  | server
  | browser
  | proxy
  | unknown
deriving DecidableEq

/-- Severity levels of the ErrorInfo table. -/
inductive Severity
  | low
  | medium
  | high
  | critical
deriving DecidableEq

/-- ErrorInfo record of ROXY_ERROR_MAP entries. -/
structure ErrorInfo where
  code : Nat
  name : String
  description : String
  chineseMsg : String
  englishMsg : String
  category : Category
  severity : Severity
  troubleshooting : List String
  autoRecoverable : Bool
  retryable : Bool
deriving DecidableEq

/-- The ROXY_ERROR_MAP table keyed by numeric code, as a total function
returning none for codes absent from the table. -/
def ROXY_ERROR_MAP : Nat → Option ErrorInfo
  | 0 => some
    { code := 0
      name := "SUCCESS"
      description := "Operation completed successfully"
      chineseMsg := "成功"
      englishMsg := "Success"
      category := .server
      severity := .low
      troubleshooting := []
      autoRecoverable := true
      retryable := false }
  | 400 => some
    { code := 400
      name := "INVALID_PARAMS"
      description := "Invalid parameters provided"
      chineseMsg := "参数错误"
      englishMsg := "Invalid parameters"
      category := .configuration
      severity := .medium
      troubleshooting :=
        [ "Check all required parameters are provided"
        , "Verify parameter types and formats"
        , "Ensure workspace ID and directory IDs exist"
        , "Validate proxy configuration format" ]
      autoRecoverable := false
      retryable := false }
  | 401 => some
    { code := 401
      name := "UNAUTHORIZED"
      description := "Authentication failed - invalid API key"
      chineseMsg := "认证失败"
      englishMsg := "Authentication failed"
      category := .authentication
      severity := .high
      troubleshooting :=
        [ "Verify ROXY_API_KEY environment variable is set correctly"
        , "Check API key in RoxyBrowser: API → API配置 → API Key"
        , "Ensure API key has not expired or been regenerated"
        , "Confirm API is enabled in RoxyBrowser settings" ]
      autoRecoverable := false
      retryable := false }
  | 403 => some
    { code := 403
      name := "FORBIDDEN"
      description := "Access denied - insufficient permissions"
      chineseMsg := "权限不足"
      englishMsg := "Access denied"
      category := .authentication
      severity := .high
      troubleshooting :=
        [ "Check if API key has sufficient permissions"
        , "Verify workspace access rights"
        , "Ensure browser profiles are not locked by another process"
        , "Check RoxyBrowser license and feature availability" ]
      autoRecoverable := false
      retryable := false }
  | 404 => some
    { code := 404
      name := "NOT_FOUND"
      description := "Resource not found"
      chineseMsg := "资源不存在"
      englishMsg := "Resource not found"
      category := .resource
      severity := .medium
      troubleshooting :=
        [ "Verify workspace ID exists using roxy_list_workspaces"
        , "Check browser directory IDs using roxy_list_browsers"
        , "Ensure browser profiles have not been deleted"
        , "Confirm project IDs are valid" ]
      autoRecoverable := false
      retryable := false }
  | 408 => some
    { code := 408
      name := "TIMEOUT"
      description := "Request timeout"
      chineseMsg := "请求超时"
      englishMsg := "Request timeout"
      category := .network
      severity := .medium
      troubleshooting :=
        [ "Check network connectivity to RoxyBrowser"
        , "Increase ROXY_TIMEOUT environment variable"
        , "Verify RoxyBrowser is responsive and not overloaded"
        , "Reduce batch operation size" ]
      autoRecoverable := true
      retryable := true }
  | 409 => some
    { code := 409
      name := "CONFLICT"
      description := "Resource conflict or insufficient profiles quota"
      chineseMsg := "资源冲突或额度不足"
      englishMsg := "Resource conflict or insufficient profiles quota"
      category := .browser
      severity := .medium
      troubleshooting :=
        [ "Check error message: if quota insufficient, purchase more profiles"
        , "If profile conflict, close conflicting profile instances"
        , "Wait for previous operations to complete"
        , "Verify workspace quota in RoxyBrowser settings" ]
      autoRecoverable := false
      retryable := false }
  | 500 => some
    { code := 500
      name := "SERVER_ERROR"
      description := "Internal server error"
      chineseMsg := "服务器内部错误"
      englishMsg := "Internal server error"
      category := .server
      severity := .high
      troubleshooting :=
        [ "Check RoxyBrowser application logs"
        , "Restart RoxyBrowser application"
        , "Verify system resources (CPU, memory, disk space)"
        , "Update RoxyBrowser to latest version" ]
      autoRecoverable := false
      retryable := true }
  | 502 => some
    { code := 502
      name := "BAD_GATEWAY"
      description := "Bad gateway - proxy or network issue"
      chineseMsg := "网关错误"
      englishMsg := "Bad gateway"
      category := .network
      severity := .high
      troubleshooting :=
        [ "Check proxy configuration"
        , "Verify network connectivity"
        , "Test proxy connection independently"
        , "Try with different proxy or no proxy" ]
      autoRecoverable := false
      retryable := true }
  | 503 => some
    { code := 503
      name := "SERVICE_UNAVAILABLE"
      description := "Service temporarily unavailable"
      chineseMsg := "服务不可用"
      englishMsg := "Service unavailable"
      category := .server
      severity := .high
      troubleshooting :=
        [ "Wait and retry after a few seconds"
        , "Check if RoxyBrowser is starting up"
        , "Verify RoxyBrowser service status"
        , "Check system resource availability" ]
      autoRecoverable := true
      retryable := true }
  | 504 => some
    { code := 504
      name := "GATEWAY_TIMEOUT"
      description := "Gateway timeout"
      chineseMsg := "网关超时"
      englishMsg := "Gateway timeout"
      category := .network
      severity := .medium
      troubleshooting :=
        [ "Increase request timeout settings"
        , "Check network latency to proxy servers"
        , "Verify proxy server responsiveness"
        , "Consider using faster proxy servers" ]
      autoRecoverable := true
      retryable := true }
  | _ => none

/-- One entry of NETWORK_ERROR_PATTERNS. The /.../i regular expressions of the
source are alternations of literal words, embedded as the list of those words
to be matched case-insensitively. -/
structure NetworkPattern where
  needles : List String
  category : String
  description : String
  troubleshooting : List String
deriving DecidableEq

/-- Whether a network pattern matches a message (pattern.test of the source). -/
def NetworkPattern.test (p : NetworkPattern) (msg : String) : Bool :=
  p.needles.any (fun n => strIncludesCI msg n)

/-- NETWORK_ERROR_PATTERNS of src/src/types.ts, in source order. -/
def NETWORK_ERROR_PATTERNS : List NetworkPattern :=
  [ { needles := ["ECONNREFUSED"]
      category := "connection_refused"
      description := "Connection refused - RoxyBrowser API not accessible"
      troubleshooting :=
        [ "Ensure RoxyBrowser application is running"
        , "Check if API port (default 50000) is open"
        , "Verify API is enabled in RoxyBrowser settings"
        , "Check firewall settings" ] }
  , { needles := ["ENOTFOUND", "getaddrinfo"]
      category := "host_not_found"
      description := "Host not found - DNS resolution failed"
      troubleshooting :=
        [ "Check ROXY_API_HOST configuration"
        , "Verify hostname spelling"
        , "Test DNS resolution"
        , "Use IP address instead of hostname" ] }
  , { needles := ["ETIMEDOUT"]
      category := "connection_timeout"
      description := "Connection timeout"
      troubleshooting :=
        [ "Check network connectivity"
        , "Increase timeout values"
        , "Verify target host is reachable"
        , "Check for network congestion" ] }
  , { needles := ["ECONNRESET"]
      category := "connection_reset"
      description := "Connection reset by peer"
      troubleshooting :=
        [ "Check server stability"
        , "Verify network equipment"
        , "Retry with exponential backoff"
        , "Check for rate limiting" ] } ]

/- ===================== RoxyApiError (src/src/types.ts) ===================== -/

/-- The retry strategy record returned by RoxyApiError.getRetryStrategy. -/
structure RetryStrategy where
  shouldRetry : Bool
  delayMs : Nat
  maxRetries : Nat
deriving DecidableEq

/-- A RoxyApiError instance after construction: message already carries the
constructor's Chinese enhancement, code is the numeric result code, and
originalError holds the message of a wrapped transport fault when present. -/
structure RoxyApiError where
  message : String
  code : Nat
  originalError : Option String
deriving DecidableEq

/-- The RoxyApiError constructor: when the code is in ROXY_ERROR_MAP the stored
message is enhanced with the entry's Chinese message in parentheses. -/
def RoxyApiError.make (message : String) (code : Nat) (originalError : Option String) :
    RoxyApiError :=
  { message :=
      match ROXY_ERROR_MAP code with
      | some info => message ++ " (" ++ info.chineseMsg ++ ")"
      | none => message
    code := code
    originalError := originalError }

/-- errorInfo field set by the constructor. -/
def RoxyApiError.errorInfo (e : RoxyApiError) : Option ErrorInfo :=
  ROXY_ERROR_MAP e.code

/-- category field: the table entry's category, or the string fallback unknown. -/
def RoxyApiError.category (e : RoxyApiError) : Category :=
  (e.errorInfo.map (fun i => i.category)).getD .unknown

/-- severity field: the table entry's severity, or medium. -/
def RoxyApiError.severity (e : RoxyApiError) : Severity :=
  (e.errorInfo.map (fun i => i.severity)).getD .medium

/-- retryable field: the table entry's retryable flag, or false. -/
def RoxyApiError.retryable (e : RoxyApiError) : Bool :=
  (e.errorInfo.map (fun i => i.retryable)).getD false

/-- troubleshooting field: the table entry's list, or the empty list. -/
def RoxyApiError.troubleshooting (e : RoxyApiError) : List String :=
  (e.errorInfo.map (fun i => i.troubleshooting)).getD []

/-- isRetryable method. -/
def RoxyApiError.isRetryable (e : RoxyApiError) : Bool :=
  e.retryable

/-- getRetryStrategy method: non-retryable errors get no retries; otherwise the
delay and budget are chosen by category alone. -/
def RoxyApiError.getRetryStrategy (e : RoxyApiError) : RetryStrategy :=
  if !e.retryable then
    { shouldRetry := false, delayMs := 0, maxRetries := 0 }
  else
    match e.category with
    | .network => { shouldRetry := true, delayMs := 2000, maxRetries := 3 }
    | .server => { shouldRetry := true, delayMs := 5000, maxRetries := 2 }
    | .browser => { shouldRetry := true, delayMs := 1000, maxRetries := 1 }
    | _ => { shouldRetry := true, delayMs := 1000, maxRetries := 1 }

/-- getTroubleshootingSteps method: the table steps, with a transport-pattern
hint prepended and the pattern's own steps appended when the original error
message matches one of NETWORK_ERROR_PATTERNS. -/
def RoxyApiError.getTroubleshootingSteps (e : RoxyApiError) : List String :=
  match e.originalError with
  | some origMsg =>
    match NETWORK_ERROR_PATTERNS.find? (fun p => p.test origMsg) with
    | some p =>
      ("**网络错误检测**: " ++ p.description) :: (e.troubleshooting ++ p.troubleshooting)
    | none => e.troubleshooting
  | none => e.troubleshooting

/- ===================== ErrorAnalyzer (src/src/utils/error-analyzer.ts) ===================== -/

/-- The ErrorAnalysisResult record. relatedErrors is optional in the source and
is only populated on the RoxyApiError path. -/
structure ErrorAnalysisResult where
  category : Category
  severity : Severity
  description : String
  chineseDescription : String
  troubleshooting : List String
  retryable : Bool
  retryStrategy : Option RetryStrategy
  suggestedActions : List String
  relatedErrors : Option (List String)
deriving DecidableEq

/-- ErrorAnalyzer.findRelatedErrors. -/
def findRelatedErrors (code : Nat) : List String :=
  let authErrors : List Nat := [401, 403]
  let networkErrors : List Nat := [408, 502, 503, 504]
  let resourceErrors : List Nat := [404, 409]
  if authErrors.contains code then
    (authErrors.filter (fun c => c ≠ code)).map (fun c => "Error " ++ toString c)
  else if networkErrors.contains code then
    (networkErrors.filter (fun c => c ≠ code)).map (fun c => "Error " ++ toString c)
  else if resourceErrors.contains code then
    (resourceErrors.filter (fun c => c ≠ code)).map (fun c => "Error " ++ toString c)
  else []

/-- ErrorAnalyzer.generateSuggestedActions: switches on the error code; for 409
the branch is chosen by inspecting the (already enhanced) error message. -/
def generateSuggestedActions (e : RoxyApiError) : List String :=
  match e.code with
  | 401 =>
    [ "Copy API key from RoxyBrowser settings"
    , "Set ROXY_API_KEY environment variable"
    , "Restart the MCP server" ]
  | 404 =>
    [ "Use roxy_list_workspaces to find valid workspace IDs"
    , "Use roxy_list_browsers to find valid browser IDs"
    , "Check if resources were deleted" ]
  | 409 =>
    if strIncludes e.message "额度不足" || strIncludes e.message "quota" then
      [ "打开 RoxyBrowser 应用 / Open RoxyBrowser app"
      , "前往费用中心 / Go to Billing Center"
      , "购买或升级窗口套餐 / Purchase or upgrade profiles plan"
      , "等待充值生效后重试创建 / Retry creation after quota is added" ]
    else
      [ "Close conflicting profile instances"
      , "Use roxy_close_browsers tool"
      , "Wait a moment and try again" ]
  | 500 =>
    [ "Check RoxyBrowser application status"
    , "Restart RoxyBrowser if needed"
    , "Check system resources" ]
  | 408 =>
    [ "Increase timeout settings"
    , "Reduce batch operation size"
    , "Check network connectivity" ]
  | 504 =>
    [ "Increase timeout settings"
    , "Reduce batch operation size"
    , "Check network connectivity" ]
  | _ => []

/-- ErrorAnalyzer.analyzeRoxyApiError. -/
def analyzeRoxyApiError (e : RoxyApiError) : ErrorAnalysisResult :=
  { category := e.category
    severity := e.severity
    description :=
      match e.errorInfo with
      | some info => info.description
      | none => e.message
    chineseDescription :=
      match e.errorInfo with
      | some info => info.chineseMsg
      | none => "未知错误"
    troubleshooting := e.getTroubleshootingSteps
    retryable := e.isRetryable
    retryStrategy := if e.isRetryable then some e.getRetryStrategy else none
    suggestedActions := generateSuggestedActions e
    relatedErrors := some (findRelatedErrors e.code) }

/-- ErrorAnalyzer.analyzeGenericError: first-match over NETWORK_ERROR_PATTERNS,
falling through to the unknown classification. -/
def analyzeGenericError (message : String) : ErrorAnalysisResult :=
  match NETWORK_ERROR_PATTERNS.find? (fun p => p.test message) with
  | some networkPattern =>
    { category := .network
      severity := .high
      description := networkPattern.description
      chineseDescription := "网络连接错误"
      troubleshooting := networkPattern.troubleshooting
      retryable := true
      retryStrategy := some { shouldRetry := true, delayMs := 3000, maxRetries := 3 }
      suggestedActions :=
        [ "Check network connectivity"
        , "Verify service availability"
        , "Try again after a brief wait" ]
      relatedErrors := none }
  | none =>
    { category := .unknown
      severity := .medium
      description := if message.isEmpty then "Unknown error occurred" else message
      chineseDescription := "未知错误"
      troubleshooting :=
        [ "Check application logs for more details"
        , "Verify system status"
        , "Try the operation again" ]
      retryable := true
      retryStrategy := some { shouldRetry := true, delayMs := 1000, maxRetries := 1 }
      suggestedActions :=
        [ "Review error message for clues"
        , "Check system resources"
        , "Contact support if issue persists" ]
      relatedErrors := none }

/-- The raw failure signals that reach classification from the claims under
study: a coded remote response, or a transport fault carrying only a message.
The ConfigError and BrowserCreationError branches of ErrorAnalyzer.analyzeError
are outside the scope of the claims and are not modelled. -/
inductive ErrorSignal
  | coded (code : Nat) (message : String)
  | transport (message : String)
deriving DecidableEq

/-- classify(signal): a coded signal goes through the RoxyApiError constructor
and ErrorAnalyzer.analyzeRoxyApiError; a transport fault (a failure that is not
a RoxyApiError instance) goes through ErrorAnalyzer.analyzeGenericError. -/
def classify : ErrorSignal → ErrorAnalysisResult
  | .coded code message => analyzeRoxyApiError (RoxyApiError.make message code none)
  | .transport message => analyzeGenericError message

/- ===================== Batch analysis patterns ===================== -/

/-- One entry of BatchErrorAnalysis.commonPatterns. -/
structure CommonPattern where
  pattern : String
  count : Nat
  affectedItems : List String
deriving DecidableEq

/-- The fixed keyword probes of findCommonPatterns. -/
def commonKeywords : List String :=
  ["timeout", "connection", "authentication", "not found", "conflict"]

/-- The pattern label of a code-level entry: the table name with the code, or a
generic label for codes outside the table. -/
def codePatternLabel (c : Nat) : String :=
  match ROXY_ERROR_MAP c with
  | some info => info.name ++ " (" ++ toString c ++ ")"
  | none => "Error Code " ++ toString c

/-- The messages paired with occurrences of code c: codes are walked with their
index and the message at the same index is collected (codeMessages of the
source; in analyzeBatchErrors the codes list is never longer than messages). -/
def messagesForCode (messages : List String) (codes : List Nat) (c : Nat) : List String :=
  (codes.zip messages).filterMap (fun cm => if cm.1 = c then some cm.2 else none)

/-- The distinct codes in ascending order: JavaScript object keys that are array
indices are iterated in ascending numeric order by Object.entries. -/
def distinctCodesAsc (codes : List Nat) : List Nat :=
  List.insertionSort (fun a b => a ≤ b) codes.dedup

/-- The code-level entries of findCommonPatterns: any code occurring at least
twice, with up to 3 example messages. -/
def codeLevelPatterns (messages : List String) (codes : List Nat) : List CommonPattern :=
  (distinctCodesAsc codes).filterMap (fun c =>
    if 2 ≤ codes.count c then
      some { pattern := codePatternLabel c
             count := codes.count c
             affectedItems := (messagesForCode messages codes c).take 3 }
    else none)

/-- The pattern label of a keyword-level entry. -/
def keywordPatternLabel (kw : String) : String :=
  "Messages containing \"" ++ kw ++ "\""

/-- The keyword-level entries of findCommonPatterns: any fixed keyword contained
case-insensitively in at least two messages, with up to 3 examples. -/
def keywordLevelPatterns (messages : List String) : List CommonPattern :=
  commonKeywords.filterMap (fun kw =>
    let matchingMessages := messages.filter (fun m => strIncludesCI m kw)
    if 2 ≤ matchingMessages.length then
      some { pattern := keywordPatternLabel kw
             count := matchingMessages.length
             affectedItems := matchingMessages.take 3 }
    else none)

/-- The comparison used to order commonPatterns: (a, b) => b.count - a.count,
a sort by descending count. -/
def byCountDesc (a b : CommonPattern) : Prop :=
  b.count ≤ a.count

instance : DecidableRel byCountDesc :=
  fun a b => Nat.decLe b.count a.count

/-- ErrorAnalyzer.findCommonPatterns: code entries then keyword entries, sorted
by descending count. -/
def findCommonPatterns (messages : List String) (codes : List Nat) : List CommonPattern :=
  List.insertionSort byCountDesc
    (codeLevelPatterns messages codes ++ keywordLevelPatterns messages)

/- ===================== Batched open with retry (src/unnamed/part_002) ===================== -/

/-- The browser open result record (BrowserOpenResult of types.ts); dirId is
optional in the source. -/
structure BrowserOpenResult where
  ws : String
  http : String
  coreVersion : String
  driver : String
  sortNum : Nat
  windowName : String
  windowRemark : String
  pid : Nat
  dirId : Option String
deriving DecidableEq

/-- One failure entry of openBrowsers. -/
structure OpenFailure where
  dirId : String
  error : String
  errorCode : Option Nat
  retryable : Bool
deriving DecidableEq

/-- The value a single item's batch promise resolves to: either the success
shape carrying the open result, or the all-attempts-failed shape. -/
inductive ItemResult
  | ok (dirId : String) (result : BrowserOpenResult)
  | err (f : OpenFailure)
deriving DecidableEq

/-- The input identifier an item result belongs to. -/
def ItemResult.dirId : ItemResult → String
  | .ok d _ => d
  | .err f => f.dirId

/-- The record built after the retry loop exhausts all attempts: message of the
last error (or the fallback), its code, and its retryability (non-RoxyApiError
faults default to retryable). -/
def mkOpenFailure (dirId : String) (lastErr : Option RoxyApiError) : OpenFailure :=
  { dirId := dirId
    error :=
      match lastErr with
      | some e => if e.message.isEmpty then "Unknown error" else e.message
      | none => "Unknown error"
    errorCode := lastErr.map (fun e => e.code)
    retryable :=
      match lastErr with
      | some e => e.isRetryable
      | none => true }

/-- The outcome of running one item through the retry loop, instrumented with
the number of operation invocations and the backoff delays slept. -/
structure RetryResult where
  outcome : ItemResult
  attempts : Nat
  sleeps : List Nat
deriving DecidableEq

/-- The body of the per-item retry loop of openBrowsers:
for (attempt = 0; attempt <= maxRetries; attempt++). The operation is indexed
by the attempt number; rem counts the loop iterations still allowed and lastErr
carries the last caught error into the fall-through failure record. A
non-retryable RoxyApiError breaks out immediately; otherwise the loop sleeps
retryDelay * (attempt + 1) unless this was the final attempt. -/
def retryGo (dirId : String) (op : Nat → Except RoxyApiError BrowserOpenResult)
    (maxRetries retryDelay : Nat) : Nat → Nat → Option RoxyApiError → RetryResult
  | _, 0, lastErr =>
    { outcome := .err (mkOpenFailure dirId lastErr), attempts := 0, sleeps := [] }
  | attempt, rem + 1, _ =>
    match op attempt with
    | .ok r => { outcome := .ok dirId r, attempts := 1, sleeps := [] }
    | .error e =>
      if !e.isRetryable then
        { outcome := .err (mkOpenFailure dirId (some e)), attempts := 1, sleeps := [] }
      else
        let rest := retryGo dirId op maxRetries retryDelay (attempt + 1) rem (some e)
        { outcome := rest.outcome
          attempts := rest.attempts + 1
          sleeps :=
            (if attempt < maxRetries then [retryDelay * (attempt + 1)] else []) ++ rest.sleeps }

/-- The full retry loop for one item: attempts 0 through maxRetries. -/
def runWithRetry (dirId : String) (op : Nat → Except RoxyApiError BrowserOpenResult)
    (maxRetries retryDelay : Nat) : RetryResult :=
  retryGo dirId op maxRetries retryDelay 0 (maxRetries + 1) none

/-- All per-item results of openBrowsers, window by window: the concatenation of
the batchResults arrays of each concurrency window of size 5. -/
def openBrowsersItemResults (dirIds : List String)
    (op : String → Nat → Except RoxyApiError BrowserOpenResult)
    (maxRetries retryDelay : Nat) : List RetryResult :=
  ((windowsOf 5 dirIds).map
    (fun w => w.map (fun d => runWithRetry d (op d) maxRetries retryDelay))).flatten

/-- The successes and failures accumulators of openBrowsers. -/
structure OpenBrowsersResult where
  successes : List BrowserOpenResult
  failures : List OpenFailure
deriving DecidableEq

/-- The partition loop over batch results: success shapes push their result,
failure shapes push the failure record. -/
def partitionItemResults (items : List ItemResult) : OpenBrowsersResult :=
  { successes := items.filterMap (fun i =>
      match i with
      | .ok _ r => some r
      | .err _ => none)
    failures := items.filterMap (fun i =>
      match i with
      | .ok _ _ => none
      | .err f => some f) }

/-- RoxyClient.openBrowsers of src/unnamed/part_002: windowed execution with
per-item retry, returning the success/failure partition. -/
def openBrowsersRun (dirIds : List String)
    (op : String → Nat → Except RoxyApiError BrowserOpenResult)
    (maxRetries retryDelay : Nat) : OpenBrowsersResult :=
  partitionItemResults
    ((openBrowsersItemResults dirIds op maxRetries retryDelay).map (fun r => r.outcome))

/-- The per-item attempt counts of a batch, in execution order. -/
def openBrowsersAttempts (dirIds : List String)
    (op : String → Nat → Except RoxyApiError BrowserOpenResult)
    (maxRetries retryDelay : Nat) : List (String × Nat) :=
  (openBrowsersItemResults dirIds op maxRetries retryDelay).map
    (fun r => (r.outcome.dirId, r.attempts))

/- ===================== Batched create (src/src/roxy-client.ts) ===================== -/

/-- The part of BrowserCreateConfig that createBrowsers inspects. The many
optional fingerprint and proxy fields are passed through opaquely to the remote
call and play no role in the orchestration. -/
structure BrowserCreateConfig where
  workspaceId : Nat
  windowName : Option String
deriving DecidableEq

/-- One entry of the createBrowsers results array. -/
structure BrowserCreateResult where
  dirId : String
  windowName : String
  success : Bool
  error : Option String
deriving DecidableEq

/-- BrowserCreateBatchResult of types.ts. -/
structure BrowserCreateBatchResult where
  results : List BrowserCreateResult
  successCount : Nat
  failureCount : Nat
  total : Nat
deriving DecidableEq

/-- The default window name config.windowName || Browser-(index+1): the JS
falsy test also replaces an empty string. -/
def windowNameOrDefault (w : Option String) (globalIndex : Nat) : String :=
  match w with
  | some s => if s.isEmpty then "Browser-" ++ toString (globalIndex + 1) else s
  | none => "Browser-" ++ toString (globalIndex + 1)

/-- One item of a createBrowsers window: the operation (createBrowser) either
returns the service-assigned dirId, or throws, in which case the result entry
carries the empty dirId and success false. The global index i + batchIndex of
the source is the item's index in the enumerated config list. -/
def createItemResult (op : Nat → BrowserCreateConfig → Except String String)
    (ic : Nat × BrowserCreateConfig) : BrowserCreateResult :=
  match op ic.1 ic.2 with
  | .ok dirId =>
    { dirId := dirId
      windowName := windowNameOrDefault ic.2.windowName ic.1
      success := true
      error := none }
  | .error errorMsg =>
    { dirId := ""
      windowName := windowNameOrDefault ic.2.windowName ic.1
      success := false
      error := some errorMsg }

/-- RoxyClient.createBrowsers: windows of size 3 over the enumerated configs,
one result entry per config, with counts computed over the collected results.
The inter-window 1000 ms pause does not affect the result value. -/
def createBrowsersRun (configs : List BrowserCreateConfig)
    (op : Nat → BrowserCreateConfig → Except String String) : BrowserCreateBatchResult :=
  let results :=
    ((windowsOf 3 configs.enum).map (fun w => w.map (createItemResult op))).flatten
  { results := results
    successCount := (results.filter (fun r => r.success)).length
    failureCount := (results.filter (fun r => !r.success)).length
    total := configs.length }

/- ===================== Window ordering trace model ===================== -/

/-- Observable events of one batched run: an item's attempt being dispatched,
and an item resolving to its final success or failure. -/
inductive BatchEvent (ι : Type)
  | start (item : ι) (attempt : Nat)
  | resolve (item : ι) (success : Bool)
deriving DecidableEq

/-- The item an event belongs to. -/
def BatchEvent.item : BatchEvent ι → ι
  | .start d _ => d
  | .resolve d _ => d

/-- The event trace of the window loop: within one window the per-item event
sequences interleave nondeterministically (modelled by the scheduling function
sched), but await Promise.all ends each window's block before the next window's
block begins, so the trace is the concatenation of the window blocks. -/
def batchTrace (k : Nat) (items : List ι) (sched : List ι → List (BatchEvent ι)) :
    List (BatchEvent ι) :=
  ((windowsOf k items).map sched).flatten

/- ===================== Observation helpers for the claims ===================== -/

/-- The input identifiers of the items that resolved successfully. -/
def successIds (items : List ItemResult) : List String :=
  items.filterMap (fun i =>
    match i with
    | .ok d _ => some d
    | .err _ => none)

/-- The input identifiers of the items that resolved as failures. -/
def failureIds (items : List ItemResult) : List String :=
  items.filterMap (fun i =>
    match i with
    | .ok _ _ => none
    | .err f => some f.dirId)

/-- The final per-item outcomes of an openBrowsers run, in execution order. -/
def openOutcomes (dirIds : List String)
    (op : String → Nat → Except RoxyApiError BrowserOpenResult)
    (maxRetries retryDelay : Nat) : List ItemResult :=
  (openBrowsersItemResults dirIds op maxRetries retryDelay).map (fun r => r.outcome)

/-- The classification analyzeGenericError produces when a transport pattern
matches: category network with high severity, the matched pattern's description
and troubleshooting, and the fixed 3000 ms / 3 retries strategy. -/
def transportMatchResult (p : NetworkPattern) : ErrorAnalysisResult :=
  { category := .network
    severity := .high
    description := p.description
    chineseDescription := "网络连接错误"
    troubleshooting := p.troubleshooting
    retryable := true
    retryStrategy := some { shouldRetry := true, delayMs := 3000, maxRetries := 3 }
    suggestedActions :=
      [ "Check network connectivity"
      , "Verify service availability"
      , "Try again after a brief wait" ]
    relatedErrors := none }

/-- Ten failure messages of the batch-analysis example scenario: three carry
code 404 and four contain the substring timeout. -/
def exampleMessages : List String :=
  [ "Resource not found A", "Resource not found B", "Resource not found C"
  , "timeout while opening", "Timeout occurred", "operation timeout", "request TIMEOUT hit"
  , "proxy rejected", "profile busy", "socket closed" ]

/-- The codes of the coded failures in the batch-analysis example scenario. -/
def exampleCodes : List Nat := [404, 404, 404]

/- ===================== Helper lemmas ===================== -/

theorem charsInclude_append_right (needle l₁ l₂ : List Char)
    (h : charsInclude needle l₂ = true) : charsInclude needle (l₁ ++ l₂) = true := by
  induction l₁ with
  | nil => simpa using h
  | cons c rest ih =>
    simp only [List.cons_append, charsInclude, Bool.or_eq_true]
    exact Or.inr ih

theorem retryGo_outcome_dirId (dirId : String)
    (op : Nat → Except RoxyApiError BrowserOpenResult) (maxRetries retryDelay : Nat) :
    ∀ (rem attempt : Nat) (lastErr : Option RoxyApiError),
      (retryGo dirId op maxRetries retryDelay attempt rem lastErr).outcome.dirId = dirId := by
  intro rem
  induction rem with
  | zero => intro attempt lastErr; rfl
  | succ rem ih =>
    intro attempt lastErr
    simp only [retryGo]
    cases hop : op attempt with
    | ok r => rfl
    | error e =>
      by_cases hr : e.isRetryable
      · simp only [hr, Bool.not_true, Bool.false_eq_true, if_false]
        exact ih (attempt + 1) (some e)
      · simp [hr, ItemResult.dirId, mkOpenFailure]

theorem runWithRetry_outcome_dirId (dirId : String)
    (op : Nat → Except RoxyApiError BrowserOpenResult) (maxRetries retryDelay : Nat) :
    (runWithRetry dirId op maxRetries retryDelay).outcome.dirId = dirId :=
  retryGo_outcome_dirId dirId op maxRetries retryDelay (maxRetries + 1) 0 none

theorem openBrowsersItemResults_eq (dirIds : List String)
    (op : String → Nat → Except RoxyApiError BrowserOpenResult)
    (maxRetries retryDelay : Nat) :
    openBrowsersItemResults dirIds op maxRetries retryDelay
      = dirIds.map (fun d => runWithRetry d (op d) maxRetries retryDelay) := by
  unfold openBrowsersItemResults
  rw [← List.map_flatten, flatten_windowsOf 5 (by omega) dirIds]

theorem createBrowsers_results_eq (configs : List BrowserCreateConfig)
    (op : Nat → BrowserCreateConfig → Except String String) :
    (createBrowsersRun configs op).results = configs.enum.map (createItemResult op) := by
  simp only [createBrowsersRun]
  rw [← List.map_flatten, flatten_windowsOf 3 (by omega) configs.enum]

theorem partition_length (items : List ItemResult) :
    (partitionItemResults items).successes.length
      + (partitionItemResults items).failures.length = items.length := by
  induction items with
  | nil => rfl
  | cons h t ih =>
    cases h <;>
      simp only [partitionItemResults, List.filterMap_cons] at ih ⊢ <;>
      simp only [List.length_cons] <;> omega

theorem partition_failures_ids (items : List ItemResult) :
    (partitionItemResults items).failures.map (fun f => f.dirId) = failureIds items := by
  induction items with
  | nil => rfl
  | cons h t ih =>
    cases h <;>
      simp only [partitionItemResults, failureIds, List.filterMap_cons, List.map_cons] at ih ⊢ <;>
      simp [ih]

theorem ids_split_perm (items : List ItemResult) :
    (successIds items ++ failureIds items).Perm (items.map ItemResult.dirId) := by
  induction items with
  | nil => rfl
  | cons h t ih =>
    cases h with
    | ok d r =>
      simpa only [successIds, failureIds, List.filterMap_cons, List.map_cons,
        List.cons_append] using List.Perm.cons d ih
    | err f =>
      simp only [successIds, failureIds, List.filterMap_cons, List.map_cons,
        ItemResult.dirId]
      exact List.perm_middle.trans (List.Perm.cons f.dirId ih)

theorem openOutcomes_map_dirId (dirIds : List String)
    (op : String → Nat → Except RoxyApiError BrowserOpenResult)
    (maxRetries retryDelay : Nat) :
    (openOutcomes dirIds op maxRetries retryDelay).map ItemResult.dirId = dirIds := by
  unfold openOutcomes
  rw [openBrowsersItemResults_eq, List.map_map, List.map_map]
  have h : ((ItemResult.dirId ∘ fun r => r.outcome) ∘ fun d =>
      runWithRetry d (op d) maxRetries retryDelay) = fun d => d := by
    funext d
    exact runWithRetry_outcome_dirId d (op d) maxRetries retryDelay
  rw [h, List.map_id']

theorem length_filter_bool_split {α : Type} (p : α → Bool) (l : List α) :
    (l.filter p).length + (l.filter (fun a => !p a)).length = l.length := by
  induction l with
  | nil => rfl
  | cons h t ih =>
    by_cases hp : p h <;> simp [List.filter_cons, hp] <;> omega

/- ===================== Claim C2 ===================== -/

/-- C2: partition completeness for completed batches. For openBrowsers,
successes and failures together count every submitted item, the identifiers of
the two partitions are a permutation of the input identifiers, and (for
duplicate-free inputs) every input identifier lands in exactly one partition.
For createBrowsers, successCount plus failureCount equals total and there is
exactly one result entry per submitted config. -/
theorem claim2_partition_completeness (dirIds : List String)
    (op : String → Nat → Except RoxyApiError BrowserOpenResult)
    (maxRetries retryDelay : Nat) (hnd : dirIds.Nodup)
    (configs : List BrowserCreateConfig)
    (cop : Nat → BrowserCreateConfig → Except String String) :
    ((openBrowsersRun dirIds op maxRetries retryDelay).successes.length
        + (openBrowsersRun dirIds op maxRetries retryDelay).failures.length = dirIds.length)
    ∧ (successIds (openOutcomes dirIds op maxRetries retryDelay)
        ++ (openBrowsersRun dirIds op maxRetries retryDelay).failures.map (fun f => f.dirId)).Perm
        dirIds
    ∧ (∀ d ∈ dirIds,
        (d ∈ successIds (openOutcomes dirIds op maxRetries retryDelay)
            ∧ d ∉ failureIds (openOutcomes dirIds op maxRetries retryDelay))
          ∨ (d ∉ successIds (openOutcomes dirIds op maxRetries retryDelay)
            ∧ d ∈ failureIds (openOutcomes dirIds op maxRetries retryDelay)))
    ∧ ((createBrowsersRun configs cop).successCount
        + (createBrowsersRun configs cop).failureCount = (createBrowsersRun configs cop).total)
    ∧ (createBrowsersRun configs cop).results.length = configs.length := by
  set items := openOutcomes dirIds op maxRetries retryDelay with hitems
  have houtrun : openBrowsersRun dirIds op maxRetries retryDelay
      = partitionItemResults items := rfl
  have hmap : items.map ItemResult.dirId = dirIds :=
    openOutcomes_map_dirId dirIds op maxRetries retryDelay
  have hlen : items.length = dirIds.length := by
    rw [← hmap, List.length_map]
  have hperm : (successIds items ++ failureIds items).Perm dirIds := by
    have h := ids_split_perm items
    rwa [hmap] at h
  have hndsf : (successIds items ++ failureIds items).Nodup :=
    hperm.nodup_iff.mpr hnd
  obtain ⟨-, -, hdisj⟩ := List.nodup_append.mp hndsf
  refine ⟨?_, ?_, ?_, ?_, ?_⟩
  · rw [houtrun, partition_length, hlen]
  · rw [houtrun, partition_failures_ids]
    exact hperm
  · intro d hd
    have hmem : d ∈ successIds (openOutcomes dirIds op maxRetries retryDelay)
        ++ failureIds (openOutcomes dirIds op maxRetries retryDelay) :=
      hperm.mem_iff.mpr hd
    rcases List.mem_append.mp hmem with hs | hf
    · exact Or.inl ⟨hs, hdisj hs⟩
    · refine Or.inr ⟨fun hs => hdisj hs hf, hf⟩
  · show ((createBrowsersRun configs cop).results.filter (fun r => r.success)).length
        + ((createBrowsersRun configs cop).results.filter (fun r => !r.success)).length
        = configs.length
    rw [length_filter_bool_split, createBrowsers_results_eq, List.length_map, List.enum_length]
  · rw [createBrowsers_results_eq, List.length_map, List.enum_length]

/-- C2 witness: the concrete 7-item batch of the example scenario satisfies the
count equation, and a one-config create batch satisfies its count equation. -/
theorem claim2_witness :
    (["b1", "b2", "b3", "b4", "b5", "b6", "b7"] : List String).Nodup
      ∧ ((openBrowsersRun ["b1", "b2", "b3", "b4", "b5", "b6", "b7"]
          (fun d _ => if d = "b2" ∨ d = "b6" then
              .error (RoxyApiError.make "Request timeout after 30000ms" 408 none)
            else .ok ⟨"ws://x", "http://x", "138", "drv", 1, d, "", 42, some d⟩)
          3 1000).successes.length
        + (openBrowsersRun ["b1", "b2", "b3", "b4", "b5", "b6", "b7"]
            (fun d _ => if d = "b2" ∨ d = "b6" then
                .error (RoxyApiError.make "Request timeout after 30000ms" 408 none)
              else .ok ⟨"ws://x", "http://x", "138", "drv", 1, d, "", 42, some d⟩)
            3 1000).failures.length
        = (["b1", "b2", "b3", "b4", "b5", "b6", "b7"] : List String).length)
      ∧ ((createBrowsersRun [{ workspaceId := 1, windowName := some "w" }]
            (fun _ _ => .error "boom")).successCount
          + (createBrowsersRun [{ workspaceId := 1, windowName := some "w" }]
              (fun _ _ => .error "boom")).failureCount
          = (createBrowsersRun [{ workspaceId := 1, windowName := some "w" }]
              (fun _ _ => .error "boom")).total) :=
  ⟨by decide,
   (claim2_partition_completeness ["b1", "b2", "b3", "b4", "b5", "b6", "b7"]
      (fun d _ => if d = "b2" ∨ d = "b6" then
          .error (RoxyApiError.make "Request timeout after 30000ms" 408 none)
        else .ok ⟨"ws://x", "http://x", "138", "drv", 1, d, "", 42, some d⟩)
      3 1000 (by decide) [{ workspaceId := 1, windowName := some "w" }]
      (fun _ _ => .error "boom")).1,
   (claim2_partition_completeness ["b1", "b2", "b3", "b4", "b5", "b6", "b7"]
      (fun d _ => if d = "b2" ∨ d = "b6" then
          .error (RoxyApiError.make "Request timeout after 30000ms" 408 none)
        else .ok ⟨"ws://x", "http://x", "138", "drv", 1, d, "", 42, some d⟩)
      3 1000 (by decide) [{ workspaceId := 1, windowName := some "w" }]
      (fun _ _ => .error "boom")).2.2.2.1⟩

/- ===================== Claim C1 ===================== -/

/-- C1 counterexample. The claim states that classifying a code-409 failure
with the resource-busy message "profile already open" yields retryable=true;
the code classifies it non-retryable (the quota half of the claim, also shown,
does hold). -/
theorem claim1_counterexample :
    (classify (.coded 409 "profile already open")).retryable = false
      ∧ (classify (.coded 409 "额度不足")).retryable = false := by
  decide

/-- C1 amended: classification of a code-409 failure does not depend on the
accompanying message. Every 409 classifies with the table's conflict entry:
category browser, retryable=false, no retry strategy. The message inspection
in generateSuggestedActions only selects suggested actions, and because the
constructor appends the table's Chinese message 资源冲突或额度不足 to every 409
message, the quota branch is taken for every message. -/
theorem claim1_amended (msg : String) :
    (classify (.coded 409 msg)).category = Category.browser
      ∧ (classify (.coded 409 msg)).retryable = false
      ∧ (classify (.coded 409 msg)).retryStrategy = none
      ∧ (classify (.coded 409 msg)).suggestedActions =
          [ "打开 RoxyBrowser 应用 / Open RoxyBrowser app"
          , "前往费用中心 / Go to Billing Center"
          , "购买或升级窗口套餐 / Purchase or upgrade profiles plan"
          , "等待充值生效后重试创建 / Retry creation after quota is added" ] := by
  have hmsg : (RoxyApiError.make msg 409 none).message
      = msg ++ " (" ++ "资源冲突或额度不足" ++ ")" := by
    rfl
  have hdata : (msg ++ " (" ++ "资源冲突或额度不足" ++ ")").toList
      = msg.toList ++ " (资源冲突或额度不足)".toList := by
    simp [String.toList, String.data_append]
  have hinc : strIncludes (RoxyApiError.make msg 409 none).message "额度不足" = true := by
    rw [strIncludes, hmsg, hdata]
    exact charsInclude_append_right _ _ _ (by decide)
  refine ⟨rfl, rfl, rfl, ?_⟩
  have hgen : generateSuggestedActions (RoxyApiError.make msg 409 none)
      = if (strIncludes (RoxyApiError.make msg 409 none).message "额度不足"
            || strIncludes (RoxyApiError.make msg 409 none).message "quota") = true
        then
          [ "打开 RoxyBrowser 应用 / Open RoxyBrowser app"
          , "前往费用中心 / Go to Billing Center"
          , "购买或升级窗口套餐 / Purchase or upgrade profiles plan"
          , "等待充值生效后重试创建 / Retry creation after quota is added" ]
        else
          [ "Close conflicting profile instances"
          , "Use roxy_close_browsers tool"
          , "Wait a moment and try again" ] := by
    rfl
  show generateSuggestedActions (RoxyApiError.make msg 409 none) = _
  rw [hgen, hinc]
  simp

/- ===================== Claim C3 ===================== -/

theorem retryGo_always_retryable (dirId : String)
    (op : Nat → Except RoxyApiError BrowserOpenResult) (maxRetries retryDelay : Nat)
    (hop : ∀ n, ∃ e, op n = .error e ∧ e.isRetryable = true) :
    ∀ (rem attempt : Nat) (lastErr : Option RoxyApiError),
      (retryGo dirId op maxRetries retryDelay attempt rem lastErr).attempts = rem
        ∧ ∃ f, (retryGo dirId op maxRetries retryDelay attempt rem lastErr).outcome
            = .err f ∧ f.dirId = dirId := by
  intro rem
  induction rem with
  | zero =>
    intro attempt lastErr
    exact ⟨rfl, mkOpenFailure dirId lastErr, rfl, rfl⟩
  | succ rem ih =>
    intro attempt lastErr
    obtain ⟨e, he, hr⟩ := hop attempt
    have := ih (attempt + 1) (some e)
    simp only [retryGo, he, hr, Bool.not_true, Bool.false_eq_true, if_false]
    exact ⟨by rw [this.1], this.2⟩

/-- C3: an item whose operation fails on every attempt with a retryable
classification is invoked exactly 1 + maxRetries times and is recorded as a
failure of that item. -/
theorem claim3_retry_termination (dirId : String)
    (op : Nat → Except RoxyApiError BrowserOpenResult) (maxRetries retryDelay : Nat)
    (hop : ∀ n, ∃ e, op n = .error e ∧ e.isRetryable = true) :
    (runWithRetry dirId op maxRetries retryDelay).attempts = 1 + maxRetries
      ∧ ∃ f, (runWithRetry dirId op maxRetries retryDelay).outcome = .err f
          ∧ f.dirId = dirId := by
  have h := retryGo_always_retryable dirId op maxRetries retryDelay hop (maxRetries + 1) 0 none
  exact ⟨by rw [runWithRetry, h.1]; omega, h.2⟩

/-- C3 witness: a concrete operation that always fails with the retryable 503
classification resolves in exactly 3 invocations when maxRetries is 2. -/
theorem claim3_witness :
    (runWithRetry "w1" (fun _ => .error (RoxyApiError.make "service down" 503 none))
      2 1000).attempts = 1 + 2 :=
  (claim3_retry_termination "w1" (fun _ => .error (RoxyApiError.make "service down" 503 none))
    2 1000 (fun _ => ⟨RoxyApiError.make "service down" 503 none, rfl, by decide⟩)).1

/- ===================== Claim C4 ===================== -/

/-- C4: an item whose first failure carries a non-retryable classification is
invoked exactly once: the loop breaks without sleeping and the item is
recorded as failed with that error's message, code and retryability. -/
theorem claim4_nonretryable_short_circuit (dirId : String)
    (op : Nat → Except RoxyApiError BrowserOpenResult) (maxRetries retryDelay : Nat)
    (e : RoxyApiError) (h0 : op 0 = .error e) (hnr : e.isRetryable = false) :
    (runWithRetry dirId op maxRetries retryDelay).attempts = 1
      ∧ (runWithRetry dirId op maxRetries retryDelay).sleeps = []
      ∧ (runWithRetry dirId op maxRetries retryDelay).outcome
          = .err (mkOpenFailure dirId (some e))
      ∧ (mkOpenFailure dirId (some e)).retryable = false
      ∧ (mkOpenFailure dirId (some e)).errorCode = some e.code := by
  refine ⟨?_, ?_, ?_, ?_, rfl⟩ <;>
    simp [runWithRetry, retryGo, h0, hnr, mkOpenFailure]

/-- C4 witness: a concrete first-attempt 400 failure resolves in one attempt
with no sleeps. -/
theorem claim4_witness :
    (runWithRetry "w1" (fun _ => .error (RoxyApiError.make "bad params" 400 none))
      2 1000).attempts = 1
      ∧ (runWithRetry "w1" (fun _ => .error (RoxyApiError.make "bad params" 400 none))
          2 1000).sleeps = [] :=
  ⟨(claim4_nonretryable_short_circuit "w1"
      (fun _ => .error (RoxyApiError.make "bad params" 400 none)) 2 1000
      (RoxyApiError.make "bad params" 400 none) rfl (by decide)).1,
   (claim4_nonretryable_short_circuit "w1"
      (fun _ => .error (RoxyApiError.make "bad params" 400 none)) 2 1000
      (RoxyApiError.make "bad params" 400 none) rfl (by decide)).2.1⟩

/- ===================== Claim C7 ===================== -/

/-- C7: in a batch of 7 items with window size 5 where items 2 and 6 always
fail with a retryable network classification (code 408) and the retry budget
maxRetries is 3, the batch reports 5 successes and 2 failures and items 2 and
6 are each attempted exactly 4 times (all other items once). -/
theorem claim7_example_batch :
    (openBrowsersRun ["b1", "b2", "b3", "b4", "b5", "b6", "b7"]
        (fun d _ => if d = "b2" ∨ d = "b6" then
            .error (RoxyApiError.make "Request timeout after 30000ms" 408 none)
          else .ok ⟨"ws://x", "http://x", "138", "drv", 1, d, "", 42, some d⟩)
        3 1000).successes.length = 5
      ∧ (openBrowsersRun ["b1", "b2", "b3", "b4", "b5", "b6", "b7"]
          (fun d _ => if d = "b2" ∨ d = "b6" then
              .error (RoxyApiError.make "Request timeout after 30000ms" 408 none)
            else .ok ⟨"ws://x", "http://x", "138", "drv", 1, d, "", 42, some d⟩)
          3 1000).failures.length = 2
      ∧ openBrowsersAttempts ["b1", "b2", "b3", "b4", "b5", "b6", "b7"]
          (fun d _ => if d = "b2" ∨ d = "b6" then
              .error (RoxyApiError.make "Request timeout after 30000ms" 408 none)
            else .ok ⟨"ws://x", "http://x", "138", "drv", 1, d, "", 42, some d⟩)
          3 1000
        = [("b1", 1), ("b2", 4), ("b3", 1), ("b4", 1), ("b5", 1), ("b6", 4), ("b7", 1)]
      ∧ (RoxyApiError.make "Request timeout after 30000ms" 408 none).isRetryable = true
      ∧ (RoxyApiError.make "Request timeout after 30000ms" 408 none).category
          = Category.network := by
  decide

/- ===================== Claim C10 ===================== -/

/-- C10: in batch browser creation every failed item's result entry carries the
empty string as its dirId (so a failed work item is identifiable only by its
position or windowName), while a successful entry carries the service-assigned
dirId. -/
theorem claim10_failed_entries_blank_dirId (configs : List BrowserCreateConfig)
    (op : Nat → BrowserCreateConfig → Except String String) (i : Nat)
    (c : BrowserCreateConfig) (r : BrowserCreateResult)
    (hc : configs[i]? = some c)
    (hr : (createBrowsersRun configs op).results[i]? = some r) :
    (r.success = false → r.dirId = "" ∧ ∃ m, op i c = .error m ∧ r.error = some m)
      ∧ (r.success = true → ∃ d, op i c = .ok d ∧ r.dirId = d) := by
  rw [createBrowsers_results_eq, List.getElem?_map, List.getElem?_enum, hc] at hr
  have hre : r = createItemResult op (i, c) := by
    simpa using hr.symm
  constructor
  · intro hs
    cases hop : op i c with
    | ok d =>
      rw [hre] at hs
      simp [createItemResult, hop] at hs
    | error m =>
      refine ⟨?_, m, rfl, ?_⟩ <;> rw [hre] <;> simp [createItemResult, hop]
  · intro hs
    cases hop : op i c with
    | ok d =>
      refine ⟨d, rfl, ?_⟩
      rw [hre]
      simp [createItemResult, hop]
    | error m =>
      rw [hre] at hs
      simp [createItemResult, hop] at hs

/-- C10 witness: a single failing creation yields the blank-dirId failure entry
predicted by the theorem. -/
theorem claim10_witness :
    (([{ workspaceId := 1, windowName := some "w" }] : List BrowserCreateConfig)[0]?
        = some { workspaceId := 1, windowName := some "w" })
      ∧ ((createBrowsersRun [{ workspaceId := 1, windowName := some "w" }]
            (fun _ _ => .error "boom")).results[0]?
          = some { dirId := "", windowName := "w", success := false, error := some "boom" })
      ∧ (({ dirId := "", windowName := "w", success := false, error := some "boom" }
            : BrowserCreateResult).success = false
          → ({ dirId := "", windowName := "w", success := false, error := some "boom" }
              : BrowserCreateResult).dirId = ""
            ∧ ∃ m, (fun (_ : Nat) (_ : BrowserCreateConfig) =>
                  (.error "boom" : Except String String)) 0
                  { workspaceId := 1, windowName := some "w" } = .error m
              ∧ ({ dirId := "", windowName := "w", success := false, error := some "boom" }
                  : BrowserCreateResult).error = some m) :=
  ⟨by decide, by decide,
   (claim10_failed_entries_blank_dirId [{ workspaceId := 1, windowName := some "w" }]
      (fun _ _ => .error "boom") 0 { workspaceId := 1, windowName := some "w" }
      { dirId := "", windowName := "w", success := false, error := some "boom" }
      (by decide) (by decide)).1⟩

/- ===================== Claim C5 ===================== -/

theorem find?_of_first {α : Type} (pred : α → Bool) :
    ∀ (l : List α) (i : Nat) (p : α), l[i]? = some p → pred p = true →
      (∀ (j : Nat) (q : α), j < i → l[j]? = some q → pred q = false) →
      l.find? pred = some p := by
  intro l
  induction l with
  | nil =>
    intro i p hp
    simp at hp
  | cons h t ih =>
    intro i p hp hpred hearlier
    cases i with
    | zero =>
      simp only [List.getElem?_cons_zero, Option.some.injEq] at hp
      subst hp
      simp [List.find?_cons, hpred]
    | succ i =>
      have hh : pred h = false := hearlier 0 h (Nat.succ_pos i) (by simp)
      simp only [List.getElem?_cons_succ] at hp
      rw [List.find?_cons, hh]
      exact ih i p hp hpred (fun j q hj hq => hearlier (j + 1) q (by omega) (by simpa using hq))

/-- C5: classification of a transport fault (a failure without a recognized
numeric code, analysed on the generic path) walks the ordered transport
pattern list; the first matching pattern fully determines the classification
(category network with that pattern's description and troubleshooting), and
when no pattern matches the classification is category unknown, severity
medium, retryable true. -/
theorem claim5_transport_first_match (msg : String) :
    (∀ (i : Nat) (p : NetworkPattern), NETWORK_ERROR_PATTERNS[i]? = some p →
        p.test msg = true →
        (∀ (j : Nat) (q : NetworkPattern), j < i →
          NETWORK_ERROR_PATTERNS[j]? = some q → q.test msg = false) →
        analyzeGenericError msg = transportMatchResult p)
      ∧ ((∀ p ∈ NETWORK_ERROR_PATTERNS, p.test msg = false) →
          (analyzeGenericError msg).category = Category.unknown
            ∧ (analyzeGenericError msg).severity = Severity.medium
            ∧ (analyzeGenericError msg).retryable = true) := by
  constructor
  · intro i p hp hpred hearlier
    have hfind : NETWORK_ERROR_PATTERNS.find? (fun q => q.test msg) = some p :=
      find?_of_first (fun q => q.test msg) NETWORK_ERROR_PATTERNS i p hp hpred hearlier
    unfold analyzeGenericError
    rw [hfind]
    rfl
  · intro hall
    have hfind : NETWORK_ERROR_PATTERNS.find? (fun q => q.test msg) = none :=
      List.find?_eq_none.mpr (fun p hp => by simp [hall p hp])
    unfold analyzeGenericError
    rw [hfind]
    exact ⟨rfl, rfl, rfl⟩

/-- C5 witness: a concrete connection-refused fault classifies through the
first pattern, and a message matching no pattern classifies as unknown. -/
theorem claim5_witness :
    analyzeGenericError "connect ECONNREFUSED 127.0.0.1:50000"
        = transportMatchResult
            { needles := ["ECONNREFUSED"]
              category := "connection_refused"
              description := "Connection refused - RoxyBrowser API not accessible"
              troubleshooting :=
                [ "Ensure RoxyBrowser application is running"
                , "Check if API port (default 50000) is open"
                , "Verify API is enabled in RoxyBrowser settings"
                , "Check firewall settings" ] }
      ∧ (analyzeGenericError "mystery failure").category = Category.unknown :=
  ⟨(claim5_transport_first_match "connect ECONNREFUSED 127.0.0.1:50000").1 0 _
      (by decide) (by decide) (fun j q hj _ => absurd hj (Nat.not_lt_zero j)),
   ((claim5_transport_first_match "mystery failure").2 (by decide)).1⟩

/- ===================== Claim C6 ===================== -/

/-- C6 counterexample. The claim states that for every retryable
classification the retry strategy is a function of the category alone, with
network yielding a 2000 ms base delay; but the transport-fault path produces a
retryable network classification carrying a 3000 ms delay, while a coded 408
failure produces a retryable network classification carrying 2000 ms. -/
theorem claim6_counterexample :
    (analyzeGenericError "connect ECONNREFUSED 127.0.0.1:50000").retryable = true
      ∧ (analyzeGenericError "connect ECONNREFUSED 127.0.0.1:50000").category
          = Category.network
      ∧ (analyzeGenericError "connect ECONNREFUSED 127.0.0.1:50000").retryStrategy
          = some { shouldRetry := true, delayMs := 3000, maxRetries := 3 }
      ∧ (classify (.coded 408 "Request timeout after 30000ms")).retryable = true
      ∧ (classify (.coded 408 "Request timeout after 30000ms")).category = Category.network
      ∧ (classify (.coded 408 "Request timeout after 30000ms")).retryStrategy
          = some { shouldRetry := true, delayMs := 2000, maxRetries := 3 }
      ∧ (some { shouldRetry := true, delayMs := 3000, maxRetries := 3 } : Option RetryStrategy)
          ≠ some { shouldRetry := true, delayMs := 2000, maxRetries := 3 } := by
  decide

/-- C6 amended: within the coded path, RoxyApiError.getRetryStrategy is a
function of retryability and category alone, with network yielding 2000 ms and
3 retries, server 5000 ms and 2, browser 1000 ms and 1, every other retryable
category 1000 ms and 1, and non-retryable classifications carrying no
strategy; classifications from the transport-fault path carry their own
strategy instead: 3000 ms and 3 retries for any matched pattern, 1000 ms and 1
for an unmatched fault. -/
theorem claim6_amended :
    (∀ e₁ e₂ : RoxyApiError, e₁.category = e₂.category → e₁.retryable = e₂.retryable →
        e₁.getRetryStrategy = e₂.getRetryStrategy)
      ∧ (∀ e : RoxyApiError, e.retryable = true → e.category = Category.network →
          e.getRetryStrategy = { shouldRetry := true, delayMs := 2000, maxRetries := 3 })
      ∧ (∀ e : RoxyApiError, e.retryable = true → e.category = Category.server →
          e.getRetryStrategy = { shouldRetry := true, delayMs := 5000, maxRetries := 2 })
      ∧ (∀ e : RoxyApiError, e.retryable = true → e.category = Category.browser →
          e.getRetryStrategy = { shouldRetry := true, delayMs := 1000, maxRetries := 1 })
      ∧ (∀ e : RoxyApiError, e.retryable = true →
          e.category ≠ Category.network → e.category ≠ Category.server →
          e.category ≠ Category.browser →
          e.getRetryStrategy = { shouldRetry := true, delayMs := 1000, maxRetries := 1 })
      ∧ (∀ e : RoxyApiError, e.retryable = false →
          (analyzeRoxyApiError e).retryStrategy = none)
      ∧ (∀ msg p, NETWORK_ERROR_PATTERNS.find? (fun q => q.test msg) = some p →
          (analyzeGenericError msg).retryStrategy
            = some { shouldRetry := true, delayMs := 3000, maxRetries := 3 })
      ∧ (∀ msg, NETWORK_ERROR_PATTERNS.find? (fun q => q.test msg) = none →
          (analyzeGenericError msg).retryStrategy
            = some { shouldRetry := true, delayMs := 1000, maxRetries := 1 }) := by
  refine ⟨?_, ?_, ?_, ?_, ?_, ?_, ?_, ?_⟩
  · intro e₁ e₂ hc hr
    unfold RoxyApiError.getRetryStrategy
    rw [hc, hr]
  · intro e hr hc
    unfold RoxyApiError.getRetryStrategy
    rw [hc, hr]
    rfl
  · intro e hr hc
    unfold RoxyApiError.getRetryStrategy
    rw [hc, hr]
    rfl
  · intro e hr hc
    unfold RoxyApiError.getRetryStrategy
    rw [hc, hr]
    rfl
  · intro e hr hn hs hb
    unfold RoxyApiError.getRetryStrategy
    rw [hr]
    cases hc : e.category <;> simp_all
  · intro e hr
    unfold analyzeRoxyApiError
    simp [RoxyApiError.isRetryable, hr]
  · intro msg p hfind
    unfold analyzeGenericError
    rw [hfind]
  · intro msg hfind
    unfold analyzeGenericError
    rw [hfind]

/-- C6 witness: the amended strategy table evaluated at concrete inputs. -/
theorem claim6_witness :
    (RoxyApiError.make "Request timeout after 30000ms" 408 none).getRetryStrategy
        = { shouldRetry := true, delayMs := 2000, maxRetries := 3 }
      ∧ (RoxyApiError.make "Internal server error" 500 none).getRetryStrategy
          = { shouldRetry := true, delayMs := 5000, maxRetries := 2 }
      ∧ (analyzeRoxyApiError (RoxyApiError.make "profile busy" 409 none)).retryStrategy = none
      ∧ (analyzeGenericError "connect ETIMEDOUT").retryStrategy
          = some { shouldRetry := true, delayMs := 3000, maxRetries := 3 }
      ∧ (analyzeGenericError "mystery failure").retryStrategy
          = some { shouldRetry := true, delayMs := 1000, maxRetries := 1 } :=
  ⟨(claim6_amended).2.1 (RoxyApiError.make "Request timeout after 30000ms" 408 none)
      (by decide) (by decide),
   (claim6_amended).2.2.1 (RoxyApiError.make "Internal server error" 500 none)
      (by decide) (by decide),
   (claim6_amended).2.2.2.2.2.1 (RoxyApiError.make "profile busy" 409 none) (by decide),
   (claim6_amended).2.2.2.2.2.2.1 "connect ETIMEDOUT"
      { needles := ["ETIMEDOUT"]
        category := "connection_timeout"
        description := "Connection timeout"
        troubleshooting :=
          [ "Check network connectivity"
          , "Increase timeout values"
          , "Verify target host is reachable"
          , "Check for network congestion" ] } (by decide),
   (claim6_amended).2.2.2.2.2.2.2 "mystery failure" (by decide)⟩

/- ===================== Claim C9 ===================== -/

theorem keywordPatternLabel_head (kw : String) :
    (keywordPatternLabel kw).data.head? = some 'M' := by
  show (("Messages containing \"" ++ kw) ++ "\"").data.head? = some 'M'
  rw [String.data_append, String.data_append,
    show ("Messages containing \"").data = 'M' :: "essages containing \"".data from rfl,
    List.cons_append, List.cons_append, List.head?_cons]

theorem roxName_head_char (c : Nat) (info : ErrorInfo) (h : ROXY_ERROR_MAP c = some info) :
    ∃ ch rest, info.name.data = ch :: rest ∧ ch ≠ 'M' := by
  unfold ROXY_ERROR_MAP at h
  split at h <;> cases h <;> exact ⟨_, _, rfl, by decide⟩

theorem codePatternLabel_head (c : Nat) :
    (codePatternLabel c).data.head? ≠ some 'M' := by
  unfold codePatternLabel
  cases h : ROXY_ERROR_MAP c with
  | none =>
    rw [String.data_append,
      show ("Error Code ").data = 'E' :: "rror Code ".data from rfl,
      List.cons_append, List.head?_cons]
    decide
  | some info =>
    obtain ⟨ch, rest, hch, hne⟩ := roxName_head_char c info h
    rw [String.data_append, String.data_append, String.data_append, hch,
      List.cons_append, List.cons_append, List.cons_append, List.head?_cons]
    intro hMM
    exact hne (Option.some.inj hMM)

theorem codePatternLabel_ne_keywordPatternLabel (c : Nat) (kw : String) :
    codePatternLabel c ≠ keywordPatternLabel kw := by
  intro he
  have h1 := codePatternLabel_head c
  rw [he] at h1
  exact h1 (keywordPatternLabel_head kw)

theorem keywordPatternLabel_inj (k₁ k₂ : String)
    (h : keywordPatternLabel k₁ = keywordPatternLabel k₂) : k₁ = k₂ := by
  unfold keywordPatternLabel at h
  have hd := congrArg String.data h
  rw [String.data_append, String.data_append, String.data_append, String.data_append] at hd
  have h1 := List.append_cancel_right hd
  have h2 := List.append_cancel_left h1
  exact String.ext h2

theorem mem_keywordLevelPatterns (messages : List String) (e : CommonPattern) :
    e ∈ keywordLevelPatterns messages ↔
      ∃ kw ∈ commonKeywords,
        2 ≤ (messages.filter (fun m => strIncludesCI m kw)).length
          ∧ e = { pattern := keywordPatternLabel kw
                , count := (messages.filter (fun m => strIncludesCI m kw)).length
                , affectedItems := (messages.filter (fun m => strIncludesCI m kw)).take 3 } := by
  unfold keywordLevelPatterns
  rw [List.mem_filterMap]
  constructor
  · rintro ⟨kw, hkw, hsome⟩
    by_cases h2 : 2 ≤ (messages.filter (fun m => strIncludesCI m kw)).length
    · refine ⟨kw, hkw, h2, ?_⟩
      simp only [h2, if_pos, Option.some.injEq] at hsome
      exact hsome.symm
    · simp [h2] at hsome
  · rintro ⟨kw, hkw, h2, rfl⟩
    exact ⟨kw, hkw, by simp [h2]⟩

theorem mem_codeLevelPatterns_label (messages : List String) (codes : List Nat)
    (e : CommonPattern) (he : e ∈ codeLevelPatterns messages codes) :
    ∃ c, e.pattern = codePatternLabel c := by
  unfold codeLevelPatterns at he
  rw [List.mem_filterMap] at he
  obtain ⟨c, _, hsome⟩ := he
  by_cases h2 : 2 ≤ codes.count c
  · refine ⟨c, ?_⟩
    simp only [h2, if_pos, Option.some.injEq] at hsome
    rw [← hsome]
  · simp [h2] at hsome

theorem codeLevel_mem_of_count (messages : List String) (codes : List Nat) (c : Nat)
    (h2 : 2 ≤ codes.count c) :
    ({ pattern := codePatternLabel c
     , count := codes.count c
     , affectedItems := (messagesForCode messages codes c).take 3 } : CommonPattern)
      ∈ codeLevelPatterns messages codes := by
  unfold codeLevelPatterns
  rw [List.mem_filterMap]
  refine ⟨c, ?_, by simp [h2]⟩
  have hc : c ∈ codes := List.count_pos_iff.mp (by omega)
  unfold distinctCodesAsc
  exact (List.perm_insertionSort _ _).mem_iff.mpr (List.mem_dedup.mpr hc)

/-- C9: findCommonPatterns reports, for each fixed keyword probe, an entry
exactly when at least two failure messages contain the keyword
case-insensitively, carrying the match count and the first three matching
messages; it reports an entry for every numeric code occurring at least twice,
carrying that code's count and up to three paired messages; and the reported
patterns are sorted by descending count. -/
theorem claim9_batch_patterns (messages : List String) (codes : List Nat) :
    (∀ kw ∈ commonKeywords,
        (2 ≤ (messages.filter (fun m => strIncludesCI m kw)).length ↔
          ∃ e ∈ findCommonPatterns messages codes,
            e.pattern = keywordPatternLabel kw
              ∧ e.count = (messages.filter (fun m => strIncludesCI m kw)).length
              ∧ e.affectedItems = (messages.filter (fun m => strIncludesCI m kw)).take 3))
      ∧ (∀ c : Nat, 2 ≤ codes.count c →
          ∃ e ∈ findCommonPatterns messages codes,
            e.pattern = codePatternLabel c ∧ e.count = codes.count c
              ∧ e.affectedItems = (messagesForCode messages codes c).take 3)
      ∧ (findCommonPatterns messages codes).Pairwise byCountDesc := by
  have hperm : (findCommonPatterns messages codes).Perm
      (codeLevelPatterns messages codes ++ keywordLevelPatterns messages) :=
    List.perm_insertionSort _ _
  refine ⟨?_, ?_, ?_⟩
  · intro kw hkw
    constructor
    · intro h2
      refine ⟨{ pattern := keywordPatternLabel kw
              , count := (messages.filter (fun m => strIncludesCI m kw)).length
              , affectedItems := (messages.filter (fun m => strIncludesCI m kw)).take 3 },
          ?_, rfl, rfl, rfl⟩
      apply hperm.mem_iff.mpr
      apply List.mem_append_right
      exact (mem_keywordLevelPatterns messages _).mpr ⟨kw, hkw, h2, rfl⟩
    · rintro ⟨e, he, hpat, hcount, -⟩
      have he' := hperm.mem_iff.mp he
      rcases List.mem_append.mp he' with hcode | hkey
      · obtain ⟨c, hc⟩ := mem_codeLevelPatterns_label messages codes e hcode
        exact absurd (hc.symm.trans hpat) (codePatternLabel_ne_keywordPatternLabel c kw)
      · obtain ⟨kw', -, h2', hee⟩ := (mem_keywordLevelPatterns messages e).mp hkey
        have hkk : kw' = kw := by
          apply keywordPatternLabel_inj
          rw [← hpat, hee]
        rw [← hkk]
        exact h2'
  · intro c h2
    refine ⟨{ pattern := codePatternLabel c
            , count := codes.count c
            , affectedItems := (messagesForCode messages codes c).take 3 },
        ?_, rfl, rfl, rfl⟩
    apply hperm.mem_iff.mpr
    apply List.mem_append_left
    exact codeLevel_mem_of_count messages codes c h2
  · haveI : IsTotal CommonPattern byCountDesc := ⟨fun a b => Nat.le_total b.count a.count⟩
    haveI : IsTrans CommonPattern byCountDesc :=
      ⟨fun a b c hab hbc => Nat.le_trans hbc hab⟩
    exact List.sorted_insertionSort byCountDesc _

/-- C9 witness: on the ten-failure example with three code-404 errors and four
timeout messages, both pattern entries are reported and the list is sorted by
descending count. -/
theorem claim9_witness :
    (2 ≤ (exampleMessages.filter (fun m => strIncludesCI m "timeout")).length)
      ∧ (∃ e ∈ findCommonPatterns exampleMessages exampleCodes,
          e.pattern = keywordPatternLabel "timeout"
            ∧ e.count = (exampleMessages.filter (fun m => strIncludesCI m "timeout")).length
            ∧ e.affectedItems
                = (exampleMessages.filter (fun m => strIncludesCI m "timeout")).take 3)
      ∧ (∃ e ∈ findCommonPatterns exampleMessages exampleCodes,
          e.pattern = codePatternLabel 404 ∧ e.count = exampleCodes.count 404
            ∧ e.affectedItems = (messagesForCode exampleMessages exampleCodes 404).take 3)
      ∧ (findCommonPatterns exampleMessages exampleCodes).Pairwise byCountDesc :=
  ⟨by decide,
   ((claim9_batch_patterns exampleMessages exampleCodes).1 "timeout" (by decide)).mp (by decide),
   (claim9_batch_patterns exampleMessages exampleCodes).2.1 404 (by decide),
   (claim9_batch_patterns exampleMessages exampleCodes).2.2⟩

/- ===================== Claim C8 ===================== -/

/-- C8: window isolation. In the windowed executor, the awaited Promise.all
block boundary means every event belonging to an item of window N occurs in the
trace strictly before every event belonging to an item of window M whenever
N is before M; in particular no item of window N+1 starts before every item of
window N has resolved. The scheduler argument captures the arbitrary
interleaving of events inside each window; it is only assumed to emit events of
that window's own items. -/
theorem claim8_window_isolation {ι : Type} (k : Nat) (hk : 0 < k)
    (items : List ι) (hnd : items.Nodup)
    (sched : List ι → List (BatchEvent ι))
    (hs : ∀ w, ∀ e ∈ sched w, BatchEvent.item e ∈ w)
    (N M : Nat) (hNM : N < M) (wN wM : List ι) (a b : ι)
    (hwN : (windowsOf k items)[N]? = some wN) (ha : a ∈ wN)
    (hwM : (windowsOf k items)[M]? = some wM) (hb : b ∈ wM)
    (i j : Nat) (e f : BatchEvent ι)
    (hi : (batchTrace k items sched)[i]? = some e)
    (hj : (batchTrace k items sched)[j]? = some f)
    (hea : BatchEvent.item e = a) (hfb : BatchEvent.item f = b) :
    i < j := by
  set ws := windowsOf k items with hws
  have hflat : ws.flatten.Nodup := by
    rw [hws, flatten_windowsOf k hk items]
    exact hnd
  have hdisj : ws.Pairwise List.Disjoint := (List.nodup_flatten.mp hflat).2
  have hcross : ∀ x ∈ ws.take M, ∀ y ∈ ws.drop M, List.Disjoint x y := by
    have h := hdisj
    rw [← List.take_append_drop M ws] at h
    exact (List.pairwise_append.mp h).2.2
  have hwNtake : wN ∈ ws.take M := by
    have h1 : (ws.take M)[N]? = some wN := by
      rw [List.getElem?_take]
      simp [hNM, hwN]
    exact List.getElem?_mem h1
  have hwMdrop : wM ∈ ws.drop M := by
    have h1 : (ws.drop M)[0]? = some wM := by
      rw [List.getElem?_drop]
      simpa using hwM
    exact List.getElem?_mem h1
  have htrace : batchTrace k items sched
      = ((ws.take M).map sched).flatten ++ ((ws.drop M).map sched).flatten := by
    rw [batchTrace, ← List.flatten_append, ← List.map_append, List.take_append_drop]
  set pre := ((ws.take M).map sched).flatten with hpre
  set suf := ((ws.drop M).map sched).flatten with hsuf
  have hi' : i < pre.length := by
    by_contra hge
    push_neg at hge
    rw [htrace, List.getElem?_append_right hge] at hi
    have hesuf : e ∈ suf := List.getElem?_mem hi
    obtain ⟨blk, hblk, heblk⟩ := List.mem_flatten.mp hesuf
    obtain ⟨w, hw, rfl⟩ := List.mem_map.mp hblk
    have haw : a ∈ w := hea ▸ hs w e heblk
    exact hcross wN hwNtake w hw ha haw
  have hj' : pre.length ≤ j := by
    by_contra hlt
    push_neg at hlt
    rw [htrace, List.getElem?_append, if_pos hlt] at hj
    have hfpre : f ∈ pre := List.getElem?_mem hj
    obtain ⟨blk, hblk, hfblk⟩ := List.mem_flatten.mp hfpre
    obtain ⟨w, hw, rfl⟩ := List.mem_map.mp hblk
    have hbw : b ∈ w := hfb ▸ hs w f hfblk
    exact hcross w hw wM hwMdrop hbw hb
  omega

/-- C8 witness: a six-item batch with window size 5 forms the windows
[1..5] and [6]; with a scheduler that emits one resolve event per item, the
event of item 1 (window 0) sits at trace position 0 and the event of item 6
(window 1) at position 5, and the theorem places the former strictly first. -/
theorem claim8_witness :
    ((windowsOf 5 [1, 2, 3, 4, 5, 6])[0]? = some [1, 2, 3, 4, 5])
      ∧ ((windowsOf 5 [1, 2, 3, 4, 5, 6])[1]? = some [6])
      ∧ ((batchTrace 5 [1, 2, 3, 4, 5, 6]
            (fun w => w.map (fun d => BatchEvent.resolve d true)))[0]?
          = some (BatchEvent.resolve 1 true))
      ∧ ((batchTrace 5 [1, 2, 3, 4, 5, 6]
            (fun w => w.map (fun d => BatchEvent.resolve d true)))[5]?
          = some (BatchEvent.resolve 6 true))
      ∧ 0 < 5 :=
  ⟨by decide, by decide, by decide, by decide,
   claim8_window_isolation 5 (by decide) [1, 2, 3, 4, 5, 6] (by decide)
     (fun w => w.map (fun d => BatchEvent.resolve d true))
     (fun w e he => by
       obtain ⟨d, hd, rfl⟩ := List.mem_map.mp he
       simpa [BatchEvent.item] using hd)
     0 1 (by decide) [1, 2, 3, 4, 5] [6] 1 6 (by decide) (by decide) (by decide) (by decide)
     0 5 (BatchEvent.resolve 1 true) (BatchEvent.resolve 6 true)
     (by decide) (by decide) rfl rfl⟩

end Roxy
